import Mathlib

/-!
Verification of the `react-vite-boilerplate` HTTP-client, store and query-cache
configuration, as a shallow embedding of the TypeScript sources
(`src/services/api.ts`, `src/app/store.ts`, the auth slice, the auth and
example services, and the query-client module).

JavaScript conventions used throughout the embedding:
* `Option String` stands for a string-or-undefined/null value;
* JS truthiness on such a value is `jsTruthy` (`undefined`, `null` and the
  empty string are falsy);
* `a || b` on strings is `jsOrStr`.
-/

namespace Boilerplate

/-- JS truthiness of a string-or-absent value: `undefined`/`null`/`""` are falsy. -/
def jsTruthy : Option String → Bool
  | none => false
  | some s => !s.isEmpty

/-- JS `a || b` where `a` is a string-or-absent value and `b` a string. -/
def jsOrStr (a : Option String) (b : String) : String :=
  match a with
  | some s => if s.isEmpty then b else s
  | none => b

/-- The build-time environment (`import.meta.env`) fields the client reads. -/
structure Env where
  VITE_API_BASE_URL : Option String
  VITE_TOKEN_KEY : Option String
  VITE_REFRESH_TOKEN_KEY : Option String
  deriving Repr, DecidableEq

/-- `getApiBaseUrl` from `src/services/api.ts`: the env base URL when set
(and non-empty, by JS truthiness), else `http://localhost:3000/api/v1`. -/
def getApiBaseUrl (env : Env) : String :=
  jsOrStr env.VITE_API_BASE_URL "http://localhost:3000/api/v1"

/-- Storage key for the access token: `VITE_TOKEN_KEY || 'auth_token'`. -/
def tokenStorageKey (env : Env) : String :=
  jsOrStr env.VITE_TOKEN_KEY "auth_token"

/-- Storage key for the refresh token: `VITE_REFRESH_TOKEN_KEY || 'refresh_token'`. -/
def refreshStorageKey (env : Env) : String :=
  jsOrStr env.VITE_REFRESH_TOKEN_KEY "refresh_token"

/-- `window.localStorage`, as a list of key/value pairs. -/
def Storage := List (String × String)
  deriving DecidableEq

/-- `localStorage.getItem` (the first binding of the key, or absent). -/
def Storage.getItem (st : Storage) (k : String) : Option String :=
  (List.find? (fun p => p.1 == k) st).map Prod.snd

/-- `localStorage.setItem`: bind `k` to `v`, replacing any previous binding. -/
def Storage.setItem (st : Storage) (k v : String) : Storage :=
  (k, v) :: List.filter (fun p : String × String => p.1 != k) st

/-- `localStorage.removeItem`. -/
def Storage.removeItem (st : Storage) (k : String) : Storage :=
  List.filter (fun p : String × String => p.1 != k) st

/-- HTTP headers of a request, as a list of name/value pairs. -/
def Headers := List (String × String)
  deriving DecidableEq

/-- Read a header by name. -/
def Headers.get (hs : Headers) (k : String) : Option String :=
  (List.find? (fun p => p.1 == k) hs).map Prod.snd

/-- `config.headers[k] = v`: set a header, replacing any previous value. -/
def Headers.set (hs : Headers) (k v : String) : Headers :=
  (k, v) :: List.filter (fun p : String × String => p.1 != k) hs

/-- An axios request config (`InternalAxiosRequestConfig`), restricted to the
fields this codebase reads or writes.  `retryFlag` is the `_retry` marker the
response interceptor adds; `headers` is always present on an internal config,
so the source's `config.headers &&` guard is always satisfied here. -/
structure RequestConfig where
  url : String
  method : String
  data : Option String
  headers : Headers
  retryFlag : Bool
  deriving DecidableEq

/-- An axios response as the interceptors and error helper see it:
its status and the optional `message` string field of its JSON body. -/
structure AxiosResponse where
  status : Nat
  dataMessage : Option String
  deriving DecidableEq

/-- An `AxiosError`: originating config, optional error `code`, `message`,
and the response when the server answered. -/
structure AxiosErrorT where
  config : RequestConfig
  code : Option String
  message : String
  response : Option AxiosResponse
  deriving DecidableEq

/-- `error.response?.status ?? 0`. -/
def AxiosErrorT.statusOrZero (e : AxiosErrorT) : Nat :=
  match e.response with
  | some r => r.status
  | none => 0

/-- `error.response?.status === 401`. -/
def AxiosErrorT.statusIs401 (e : AxiosErrorT) : Bool :=
  match e.response with
  | some r => r.status == 401
  | none => false

/-- The request interceptor of `src/services/api.ts` (lines 49-64): read the
token from localStorage under the configured key and, when it is truthy, set
the `Authorization` header to `Bearer <token>`; otherwise return the config
unchanged. -/
def requestInterceptor (env : Env) (st : Storage) (cfg : RequestConfig) :
    RequestConfig :=
  match Storage.getItem st (tokenStorageKey env) with
  | some token =>
      if token.isEmpty then cfg
      else { cfg with headers := Headers.set cfg.headers "Authorization" ("Bearer " ++ token) }
  | none => cfg

/-- What the response interceptor's error handler resolves to. -/
inductive InterceptorAction where
  /-- `return api(originalRequest)`: retry the (mutated) original request. -/
  | retryRequest (cfg : RequestConfig)
  /-- `return Promise.reject(error)`: reject with the original error, whose
  config is `cfg` (the mutation of `_retry`, when it happened, is visible). -/
  | rejectOriginal (cfg : RequestConfig)
  /-- `return Promise.reject(refreshError)`: reject with the refresh failure. -/
  | rejectRefreshError (e : String)
  deriving DecidableEq

/-- The config carried by the action, when it carries one. -/
def InterceptorAction.configOf : InterceptorAction → Option RequestConfig
  | .retryRequest cfg => some cfg
  | .rejectOriginal cfg => some cfg
  | .rejectRefreshError _ => none

/-- Result of one run of the response interceptor's error handler: the action,
the localStorage afterwards, any `window.location.href` assignment, and the
URL of the `/auth/refresh` POST when one was issued. -/
structure InterceptorOutcome where
  action : InterceptorAction
  storage : Storage
  redirect : Option String
  refreshCall : Option String
  deriving DecidableEq

/-- The response interceptor's error handler of `src/services/api.ts`
(lines 69-128).  The outcome of the network call
`axios.post(getApiBaseUrl() + '/auth/refresh', {refreshToken})` is the
parameter `refreshResult`: `.ok token` when it resolved with `data.token`,
`.error e` when it rejected.  On a 401 whose config is not yet `_retry`
marked, the handler marks it, and when a (truthy) refresh token is stored it
posts to the refresh endpoint: on success it stores the new token and retries
the original request with `Authorization: Bearer <token>`; on failure it
removes both tokens, redirects to `/login` and rejects with the refresh
error.  Every other error is rejected unchanged. -/
def responseErrorInterceptor (env : Env) (err : AxiosErrorT) (st : Storage)
    (refreshResult : Except String String) : InterceptorOutcome :=
  let originalRequest := err.config
  if err.statusIs401 && !originalRequest.retryFlag then
    let originalRequest := { originalRequest with retryFlag := true }
    match Storage.getItem st (refreshStorageKey env) with
    | some refreshToken =>
        if refreshToken.isEmpty then
          -- `if (refreshToken)` is false: fall through to `Promise.reject(error)`
          { action := .rejectOriginal originalRequest, storage := st,
            redirect := none, refreshCall := none }
        else
          match refreshResult with
          | .ok token =>
              { action := .retryRequest
                  { originalRequest with
                    headers := Headers.set originalRequest.headers "Authorization"
                      ("Bearer " ++ token) },
                storage := Storage.setItem st (tokenStorageKey env) token,
                redirect := none,
                refreshCall := some (getApiBaseUrl env ++ "/auth/refresh") }
          | .error refreshError =>
              { action := .rejectRefreshError refreshError,
                storage := Storage.removeItem
                  (Storage.removeItem st (tokenStorageKey env)) (refreshStorageKey env),
                redirect := some "/login",
                refreshCall := some (getApiBaseUrl env ++ "/auth/refresh") }
    | none =>
        { action := .rejectOriginal originalRequest, storage := st,
          redirect := none, refreshCall := none }
  else
    { action := .rejectOriginal originalRequest, storage := st,
      redirect := none, refreshCall := none }

/-!
The retry layer: `axiosRetry(api, {...})` in `src/services/api.ts`
(lines 34-44) configures the third-party `axios-retry` helper.  The helper's
own predicates (`isNetworkError`, `isRetryableError`,
`isIdempotentRequestError`, `isNetworkOrIdempotentRequestError`, the
`retryCount < retries` gate and `exponentialDelay`) are embedded below from
the `axios-retry` / `is-retry-allowed` library sources, which are
dependencies of this repository rather than files in it.
-/

/-- The deny list of the `is-retry-allowed` package: error codes that are
never worth retrying (DNS/route failures and TLS certificate errors). -/
def retryDenyList : List String :=
  ["ENOTFOUND", "ENETUNREACH",
   "UNABLE_TO_GET_ISSUER_CERT", "UNABLE_TO_GET_CRL",
   "UNABLE_TO_DECRYPT_CERT_SIGNATURE", "UNABLE_TO_DECRYPT_CRL_SIGNATURE",
   "UNABLE_TO_DECODE_ISSUER_PUBLIC_KEY", "CERT_SIGNATURE_FAILURE",
   "CRL_SIGNATURE_FAILURE", "CERT_NOT_YET_VALID", "CERT_HAS_EXPIRED",
   "CRL_NOT_YET_VALID", "CRL_HAS_EXPIRED", "ERROR_IN_CERT_NOT_BEFORE_FIELD",
   "ERROR_IN_CERT_NOT_AFTER_FIELD", "ERROR_IN_CRL_LAST_UPDATE_FIELD",
   "ERROR_IN_CRL_NEXT_UPDATE_FIELD", "OUT_OF_MEM",
   "DEPTH_ZERO_SELF_SIGNED_CERT", "SELF_SIGNED_CERT_IN_CHAIN",
   "UNABLE_TO_GET_ISSUER_CERT_LOCALLY", "UNABLE_TO_VERIFY_LEAF_SIGNATURE",
   "CERT_CHAIN_TOO_LONG", "CERT_REVOKED", "INVALID_CA",
   "PATH_LENGTH_EXCEEDED", "INVALID_PURPOSE", "CERT_UNTRUSTED",
   "CERT_REJECTED", "HOSTNAME_MISMATCH"]

/-- `is-retry-allowed`: true unless the error code is on the deny list. -/
def isRetryAllowed (code : Option String) : Bool :=
  match code with
  | some c => !(List.contains retryDenyList c)
  | none => true

/-- `axios-retry`'s `isNetworkError`: no response, a truthy `code` that is
neither `ERR_CANCELED` nor `ECONNABORTED`, and `is-retry-allowed` agrees. -/
def isNetworkError (e : AxiosErrorT) : Bool :=
  e.response.isNone &&
    (match e.code with
     | some c =>
         !c.isEmpty && c != "ERR_CANCELED" && c != "ECONNABORTED" &&
           isRetryAllowed (some c)
     | none => false)

/-- `axios-retry`'s `isRetryableError`: not aborted, and either no response
or a 5xx status. -/
def isRetryableError (e : AxiosErrorT) : Bool :=
  e.code != some "ECONNABORTED" &&
    (e.response.isNone ||
      (500 ≤ e.statusOrZero && e.statusOrZero ≤ 599))

/-- `axios-retry`'s list of idempotent HTTP methods. -/
def idempotentHttpMethods : List String :=
  ["get", "head", "options", "put", "delete"]

/-- `axios-retry`'s `isIdempotentRequestError`: a retryable error whose
request method is idempotent. -/
def isIdempotentRequestError (e : AxiosErrorT) : Bool :=
  !e.config.method.isEmpty && isRetryableError e &&
    List.contains idempotentHttpMethods e.config.method

/-- `axios-retry`'s `isNetworkOrIdempotentRequestError`. -/
def isNetworkOrIdempotentRequestError (e : AxiosErrorT) : Bool :=
  isNetworkError e || isIdempotentRequestError e

/-- The deterministic part of `axios-retry`'s `exponentialDelay` for the
`retryNumber`-th retry: `2 ** retryNumber * 100` milliseconds (the library
adds a random jitter of up to 20% of this on top). -/
def exponentialDelayBase (retryNumber : Nat) : Nat :=
  2 ^ retryNumber * 100

/-- The options this repository passes to `axiosRetry`. -/
structure RetryConfig where
  retries : Nat
  retryCondition : AxiosErrorT → Bool
  retryDelayBase : Nat → Nat

/-- The `axiosRetry(api, {...})` call of `src/services/api.ts` (lines 34-44):
3 retries, exponential delay, and retry when the error is a
network/idempotent-request error or `(error.response?.status ?? 0) >= 500`. -/
def apiRetryConfig : RetryConfig where
  retries := 3
  retryCondition := fun e =>
    isNetworkOrIdempotentRequestError e || decide (500 ≤ e.statusOrZero)
  retryDelayBase := exponentialDelayBase

/-- The `axios-retry` driver's decision to schedule one more retry:
the retry count so far is below `retries` and `retryCondition` accepts the
error. -/
def shouldRetry (cfg : RetryConfig) (retryCount : Nat) (e : AxiosErrorT) : Bool :=
  decide (retryCount < cfg.retries) && cfg.retryCondition e

/-- A value passed to `getErrorMessage`, classified the way the function's
guards classify it: an axios error (`axios.isAxiosError`), some other
`Error`, or any non-`Error` value. -/
inductive ErrorInput where
  | axios (e : AxiosErrorT)
  | jsError (message : String)
  | nonError
  deriving DecidableEq

/-- `getErrorMessage` of `src/services/api.ts` (lines 142-154).  For an axios
error it is the JS chain `error.response?.data?.message || error.message ||
'An unexpected error occurred'`; for another `Error`, `error.message`; else
the fixed fallback string. -/
def getErrorMessage : ErrorInput → String
  | .axios e =>
      jsOrStr (Option.bind e.response AxiosResponse.dataMessage)
        (jsOrStr (some e.message) "An unexpected error occurred")
  | .jsError message => message
  | .nonError => "An unexpected error occurred"

/-- An HTTP request a service issues: its method and its path relative to
the client's base URL. -/
structure ServiceCall where
  method : String
  path : String
  deriving DecidableEq

/-- `authService.login`: `api.post('/auth/login', credentials)`. -/
def authService.login : ServiceCall := ⟨"post", "/auth/login"⟩

/-- `authService.register`: `api.post('/auth/register', userData)`. -/
def authService.register : ServiceCall := ⟨"post", "/auth/register"⟩

/-- `authService.logout`: `api.post('/auth/logout', {refreshToken})`. -/
def authService.logout : ServiceCall := ⟨"post", "/auth/logout"⟩

/-- `authService.getCurrentUser`: `api.get('/auth/me')`. -/
def authService.getCurrentUser : ServiceCall := ⟨"get", "/auth/me"⟩

/-- `authService.refreshToken`: `api.post('/auth/refresh', {refreshToken})`. -/
def authService.refreshToken : ServiceCall := ⟨"post", "/auth/refresh"⟩

/-- `authService.forgotPassword`: `api.post('/auth/forgot-password', {email})`. -/
def authService.forgotPassword : ServiceCall := ⟨"post", "/auth/forgot-password"⟩

/-- `authService.resetPassword`: `api.post('/auth/reset-password', ...)`. -/
def authService.resetPassword : ServiceCall := ⟨"post", "/auth/reset-password"⟩

/-- All calls of `authService` (`features/auth/services/authService.ts`). -/
def authService.calls : List ServiceCall :=
  [authService.login, authService.register, authService.logout,
   authService.getCurrentUser, authService.refreshToken,
   authService.forgotPassword, authService.resetPassword]

/-- `exampleService.getItems`: `api.get('/example/items')`. -/
def exampleService.getItems : ServiceCall := ⟨"get", "/example/items"⟩

/-- `exampleService.getItemById`: `api.get('/example/items/' + id)`. -/
def exampleService.getItemById (id : String) : ServiceCall :=
  ⟨"get", "/example/items/" ++ id⟩

/-- `exampleService.createItem`: `api.post('/example/items', data)`. -/
def exampleService.createItem : ServiceCall := ⟨"post", "/example/items"⟩

/-- `exampleService.updateItem`: `api.patch('/example/items/' + id, ...)`. -/
def exampleService.updateItem (id : String) : ServiceCall :=
  ⟨"patch", "/example/items/" ++ id⟩

/-- `exampleService.deleteItem`: `api.delete('/example/items/' + id)`. -/
def exampleService.deleteItem (id : String) : ServiceCall :=
  ⟨"delete", "/example/items/" ++ id⟩

/-- All calls of `exampleService`, for a given item id where the path is
parameterised (`features/example-feature/services/exampleService.ts`). -/
def exampleService.calls (id : String) : List ServiceCall :=
  [exampleService.getItems, exampleService.getItemById id,
   exampleService.createItem, exampleService.updateItem id,
   exampleService.deleteItem id]

/-- Every path a service call of the client can target (auth service calls,
and example service calls over all item ids). -/
def clientServicePaths : Set String :=
  {p | p ∈ List.map ServiceCall.path authService.calls} ∪
    {p | ∃ id, p ∈ List.map ServiceCall.path (exampleService.calls id)}

/-- The query-default options the app's `queryClient` passes to the
third-party query library (fields it leaves to the library default are
absent). -/
structure QueryDefaults where
  staleTime : Option Nat
  gcTime : Option Nat
  retry : Option Nat
  refetchOnMount : Option Bool
  refetchOnReconnect : Option Bool
  deriving DecidableEq

/-- The mutation-default options the app's `queryClient` sets. -/
structure MutationDefaults where
  retry : Option Nat
  deriving DecidableEq

/-- `defaultOptions.queries` of the `new QueryClient({...})` call in the
query-client module: staleTime 5 minutes, gcTime 10 minutes, retry once,
refetch on mount, no refetch on reconnect (refetchOnWindowFocus is the
build-time `PROD` flag and is left out of this record). -/
def queryClientQueryDefaults : QueryDefaults where
  staleTime := some (5 * 60 * 1000)
  gcTime := some (10 * 60 * 1000)
  retry := some 1
  refetchOnMount := some true
  refetchOnReconnect := some false

/-- `defaultOptions.mutations` of the same call: retry once. -/
def queryClientMutationDefaults : MutationDefaults where
  retry := some 1

/-- The `User` DTO of the auth feature. -/
structure User where
  id : String
  email : String
  name : String
  role : String
  deriving DecidableEq

/-- `LoginResponse` (also the payload shape of a fulfilled register). -/
structure LoginResponse where
  user : User
  token : String
  refreshToken : String
  deriving DecidableEq

/-- `AuthState` of `features/auth/slices/authSlice.ts`. -/
structure AuthState where
  user : Option User
  token : Option String
  refreshToken : Option String
  isAuthenticated : Bool
  isLoading : Bool
  error : Option String
  deriving DecidableEq

/-- Every action the auth slice reduces: its three plain reducers and the
pending/fulfilled/rejected cases of the login, register and logout thunks.
A rejected thunk's payload is the optional `rejectWithValue` string. -/
inductive AuthAction where
  | setCredentials (user : Option User) (token : String) (refreshToken : String)
  | clearCredentials
  | clearError
  | loginPending
  | loginFulfilled (payload : LoginResponse)
  | loginRejected (payload : Option String)
  | registerPending
  | registerFulfilled (payload : LoginResponse)
  | registerRejected (payload : Option String)
  | logoutPending
  | logoutFulfilled
  | logoutRejected (payload : Option String)
  deriving DecidableEq

/-- Store both tokens in localStorage under the configured keys (the
`localStorage.setItem` pair that `setCredentials` and the fulfilled
login/register cases perform). -/
def persistTokens (env : Env) (st : Storage) (token refreshToken : String) :
    Storage :=
  Storage.setItem (Storage.setItem st (tokenStorageKey env) token)
    (refreshStorageKey env) refreshToken

/-- Remove both tokens from localStorage (the `localStorage.removeItem` pair
that `clearCredentials` and the fulfilled logout case perform). -/
def clearTokens (env : Env) (st : Storage) : Storage :=
  Storage.removeItem (Storage.removeItem st (tokenStorageKey env))
    (refreshStorageKey env)

/-- The auth slice reducer (`features/auth/slices/authSlice.ts`), together
with its localStorage side effects.  Rejected cases store
`action.payload || '<verb> failed'` in `error`. -/
def authReducer (env : Env) (s : AuthState × Storage) (a : AuthAction) :
    AuthState × Storage :=
  match a with
  | .setCredentials user token refreshToken =>
      ({ s.1 with user := user, token := some token,
                  refreshToken := some refreshToken, isAuthenticated := true },
       persistTokens env s.2 token refreshToken)
  | .clearCredentials =>
      ({ s.1 with user := none, token := none, refreshToken := none,
                  isAuthenticated := false, error := none },
       clearTokens env s.2)
  | .clearError => ({ s.1 with error := none }, s.2)
  | .loginPending => ({ s.1 with isLoading := true, error := none }, s.2)
  | .loginFulfilled payload =>
      ({ s.1 with isLoading := false, user := some payload.user,
                  token := some payload.token,
                  refreshToken := some payload.refreshToken,
                  isAuthenticated := true },
       persistTokens env s.2 payload.token payload.refreshToken)
  | .loginRejected payload =>
      ({ s.1 with isLoading := false,
                  error := some (jsOrStr payload "Login failed") }, s.2)
  | .registerPending => ({ s.1 with isLoading := true, error := none }, s.2)
  | .registerFulfilled payload =>
      ({ s.1 with isLoading := false, user := some payload.user,
                  token := some payload.token,
                  refreshToken := some payload.refreshToken,
                  isAuthenticated := true },
       persistTokens env s.2 payload.token payload.refreshToken)
  | .registerRejected payload =>
      ({ s.1 with isLoading := false,
                  error := some (jsOrStr payload "Registration failed") }, s.2)
  | .logoutPending => ({ s.1 with isLoading := true }, s.2)
  | .logoutFulfilled =>
      ({ s.1 with isLoading := false, user := none, token := none,
                  refreshToken := none, isAuthenticated := false },
       clearTokens env s.2)
  | .logoutRejected payload =>
      ({ s.1 with isLoading := false,
                  error := some (jsOrStr payload "Logout failed") }, s.2)

/-- `ExampleState` of `features/example-feature/slices/exampleSlice.ts`
(the example items are opaque for persistence purposes). -/
structure ExampleState where
  items : List String
  selectedItem : Option String
  isLoading : Bool
  error : Option String
  deriving DecidableEq

/-- The root state combined by `rootReducer` in `src/app/store.ts`:
the `auth` and `example` slices. -/
structure RootState where
  auth : AuthState
  «example» : ExampleState
  deriving DecidableEq

/-- `persistConfig.whitelist` of `src/app/store.ts`. -/
def persistWhitelist : List String := ["auth"]

/-- What redux-persist saves of the root state: a slice is included exactly
when its key is on the whitelist (redux-persist is a dependency; per its
whitelist semantics, non-whitelisted slices are dropped from the persisted
record). -/
def persistedPartial (s : RootState) : Option AuthState × Option ExampleState :=
  ((if List.contains persistWhitelist "auth" then some s.auth else none),
   (if List.contains persistWhitelist "example" then some s.«example» else none))

/-- Rehydration (redux-persist's default level-1 merge): each slice present
in the saved record replaces the freshly initialised slice; absent slices
keep their initial value. -/
def rehydrate (init : RootState) (saved : Option AuthState × Option ExampleState) :
    RootState :=
  { auth := Option.getD saved.1 init.auth,
    «example» := Option.getD saved.2 init.«example» }

/-!  Concrete sample values used to exercise the definitions. -/

/-- The environment with none of the three variables set (all defaults). -/
def envDefault : Env := ⟨none, none, none⟩

/-- An empty localStorage. -/
def emptyStorage : Storage := ([] : List (String × String))

/-- A localStorage holding both tokens under the default keys. -/
def sampleStorage : Storage :=
  ([("auth_token", "tok"), ("refresh_token", "rtok")] : List (String × String))

/-- A localStorage whose stored access token is the empty string. -/
def emptyTokenStorage : Storage :=
  ([("auth_token", "")] : List (String × String))

/-- Headers of a fresh request. -/
def sampleHeaders : Headers :=
  ([("Content-Type", "application/json")] : List (String × String))

/-- A GET of the example collection, not yet retried. -/
def sampleConfig : RequestConfig :=
  ⟨"/example/items", "get", none, sampleHeaders, false⟩

/-- The same request after the interceptor marked it `_retry`. -/
def retriedConfig : RequestConfig := { sampleConfig with retryFlag := true }

/-- A bare 401 response. -/
def resp401 : AxiosResponse := ⟨401, none⟩

/-- A 404 response whose body has a `message` field. -/
def resp404 : AxiosResponse := ⟨404, some "Not found"⟩

/-- A 401 error on the sample request. -/
def err401 : AxiosErrorT :=
  ⟨sampleConfig, none, "Request failed with status code 401", some resp401⟩

/-- A 401 error on a second, distinct request (another URL). -/
def err401b : AxiosErrorT :=
  ⟨{ sampleConfig with url := "/auth/me" }, none,
   "Request failed with status code 401", some resp401⟩

/-- A 401 error whose request is already `_retry`-marked. -/
def err401retried : AxiosErrorT := { err401 with config := retriedConfig }

/-- A 404 error on the sample request. -/
def err404 : AxiosErrorT :=
  ⟨sampleConfig, none, "Request failed with status code 404", some resp404⟩

/-- An axios error whose response body carries `message: ""`. -/
def errEmptyDataMessage : AxiosErrorT :=
  ⟨sampleConfig, none, "boom", some ⟨500, some ""⟩⟩

/-- The empty auth state (nobody logged in, nothing stored). -/
def authState0 : AuthState := ⟨none, none, none, false, false, none⟩

/-!  Helper lemmas about the localStorage model. -/

/-- After `removeItem st k`, the key `k` is gone. -/
theorem Storage.getItem_removeItem_self (st : Storage) (k : String) :
    Storage.getItem (Storage.removeItem st k) k = none := by
  simp only [Storage.getItem, Storage.removeItem, Option.map_eq_none',
    List.find?_eq_none]
  intro x hx
  have h2 := (List.mem_filter.mp hx).2
  simp only [bne_iff_ne, ne_eq] at h2
  simp [h2]

/-- Removing any key preserves the absence of a key. -/
theorem Storage.getItem_removeItem_of_none (st : Storage) (k k2 : String)
    (h : Storage.getItem st k = none) :
    Storage.getItem (Storage.removeItem st k2) k = none := by
  simp only [Storage.getItem, Storage.removeItem, Option.map_eq_none',
    List.find?_eq_none] at h ⊢
  intro x hx
  exact h x (List.mem_filter.mp hx).1

/-!  Helper lemmas about JS truthiness. -/

/-- A string other than `""` has `isEmpty = false`. -/
theorem isEmpty_false_of_ne (s : String) (h : s ≠ "") : s.isEmpty = false := by
  cases hE : s.isEmpty
  · rfl
  · exact absurd ((String.isEmpty_iff s).mp hE) h

/-- `a || b` falls through to `b` when `a` is falsy. -/
theorem jsOrStr_of_falsy (a : Option String) (b : String)
    (h : jsTruthy a = false) : jsOrStr a b = b := by
  cases a with
  | none => rfl
  | some s =>
      simp only [jsTruthy, Bool.not_eq_false'] at h
      simp [jsOrStr, h]

/-- `a || b` keeps a non-empty string `a`. -/
theorem jsOrStr_of_ne (s b : String) (h : s ≠ "") : jsOrStr (some s) b = s := by
  simp [jsOrStr, isEmpty_false_of_ne s h]

/-- The refresh POST, when one is issued, always targets
`getApiBaseUrl() + '/auth/refresh'`. -/
theorem refreshCall_shape (env : Env) (err : AxiosErrorT) (st : Storage)
    (res : Except String String) :
    (responseErrorInterceptor env err st res).refreshCall = none ∨
    (responseErrorInterceptor env err st res).refreshCall =
      some (getApiBaseUrl env ++ "/auth/refresh") := by
  unfold responseErrorInterceptor
  dsimp only
  split
  · split
    · split
      · exact Or.inl rfl
      · split
        · exact Or.inr rfl
        · exact Or.inr rfl
    · exact Or.inl rfl
  · exact Or.inl rfl

/-!  The claims. -/

/-- **C5.**  The persistence whitelist of the store is exactly the `auth`
slice: the persisted record of any root state carries the auth sub-state and
drops the example sub-state, and rehydration restores the saved auth sub-state
while the example slice always comes back as the fresh initial one. -/
theorem persist_whitelist_auth_only :
    persistWhitelist = ["auth"] ∧
    (∀ s : RootState, persistedPartial s = (some s.auth, none)) ∧
    (∀ init s : RootState,
      rehydrate init (persistedPartial s) =
        { auth := s.auth, «example» := init.«example» }) :=
  ⟨rfl, fun _ => rfl, fun _ _ => rfl⟩

/-- **C2**, counterexample: the application's query client does not leave the
stale-time/garbage-collection/retry policy at the library defaults — it sets
every one of them (staleTime, gcTime and query retry, plus mutation retry). -/
theorem queryClient_overrides_library_defaults :
    queryClientQueryDefaults.staleTime ≠ none ∧
    queryClientQueryDefaults.gcTime ≠ none ∧
    queryClientQueryDefaults.retry ≠ none ∧
    queryClientMutationDefaults.retry ≠ none := by
  refine ⟨?_, ?_, ?_, ?_⟩ <;> decide

/-- **C2**, amended: the query client configures custom defaults — a 5-minute
stale time (300000 ms), a 10-minute garbage-collection time (600000 ms), one
retry for queries and one retry for mutations (plus refetch-on-mount on and
refetch-on-reconnect off). -/
theorem queryClient_custom_configuration :
    queryClientQueryDefaults.staleTime = some 300000 ∧
    queryClientQueryDefaults.gcTime = some 600000 ∧
    queryClientQueryDefaults.retry = some 1 ∧
    queryClientQueryDefaults.refetchOnMount = some true ∧
    queryClientQueryDefaults.refetchOnReconnect = some false ∧
    queryClientMutationDefaults.retry = some 1 := by
  refine ⟨?_, ?_, ?_, ?_, ?_, ?_⟩ <;> decide

/-- **C7**, counterexample: the client's endpoints are not exactly the three
paths the spec names — the auth service also posts to `/auth/register`, which
is none of `/auth/login`, `/auth/refresh`, `/example/items`. -/
theorem authService_calls_an_unnamed_path :
    "/auth/register" ∈ List.map ServiceCall.path authService.calls ∧
    "/auth/register" ∉
      (["/auth/login", "/auth/refresh", "/example/items"] : List String) := by
  decide

/-- **C7**, amended: the named endpoints are all called as described — the
auth service posts to `/auth/login` and `/auth/refresh`, the interceptor's
refresh POST (whenever one is issued) targets `getApiBaseUrl() +
'/auth/refresh'`, and the example service's collection requests target
`/example/items` — but they are not the only ones: the auth service also
calls `/auth/register`, `/auth/logout`, `/auth/me`, `/auth/forgot-password`
and `/auth/reset-password`, and the example service also issues per-item
requests to `/example/items/<id>`. -/
theorem client_endpoint_paths :
    authService.login = ⟨"post", "/auth/login"⟩ ∧
    authService.refreshToken = ⟨"post", "/auth/refresh"⟩ ∧
    exampleService.getItems = ⟨"get", "/example/items"⟩ ∧
    exampleService.createItem = ⟨"post", "/example/items"⟩ ∧
    (∀ env err st res u,
      (responseErrorInterceptor env err st res).refreshCall = some u →
        u = getApiBaseUrl env ++ "/auth/refresh") ∧
    List.map ServiceCall.path authService.calls =
      ["/auth/login", "/auth/register", "/auth/logout", "/auth/me",
       "/auth/refresh", "/auth/forgot-password", "/auth/reset-password"] ∧
    (∀ id, List.map ServiceCall.path (exampleService.calls id) =
      ["/example/items", "/example/items/" ++ id, "/example/items",
       "/example/items/" ++ id, "/example/items/" ++ id]) := by
  refine ⟨rfl, rfl, rfl, rfl, ?_, by decide, fun _ => rfl⟩
  intro env err st res u hu
  rcases refreshCall_shape env err st res with h | h
  · rw [h] at hu; cases hu
  · rw [h] at hu; exact (Option.some_inj.mp hu).symm

/-- Witness for the amended C7: a concrete refresh POST issued by the
interceptor under the default environment targets
`http://localhost:3000/api/v1/auth/refresh`. -/
theorem client_endpoint_paths_witness :
    ("http://localhost:3000/api/v1/auth/refresh" : String) =
      getApiBaseUrl envDefault ++ "/auth/refresh" :=
  client_endpoint_paths.2.2.2.2.1 envDefault err401 sampleStorage
    (Except.ok "new") "http://localhost:3000/api/v1/auth/refresh" (by decide)

/-- **C4**, counterexample: when localStorage holds the empty string under the
token key it does hold a value, yet (by JS truthiness, `'' && ...` is false)
the request interceptor adds no `Authorization` header and returns the config
unchanged, where the claim asks for the header `Bearer `. -/
theorem empty_stored_token_adds_no_header :
    Storage.getItem emptyTokenStorage (tokenStorageKey envDefault) = some "" ∧
    requestInterceptor envDefault emptyTokenStorage sampleConfig
      = sampleConfig ∧
    Headers.get
      (requestInterceptor envDefault emptyTokenStorage sampleConfig).headers
      "Authorization" = none := by
  refine ⟨?_, ?_, ?_⟩ <;> decide

/-- **C4**, amended: if localStorage holds a *non-empty* token under the
configured key, the request interceptor returns the config with only its
`Authorization` header set, to `Bearer <token>`; if the stored value is
falsy (absent or empty), the config is returned entirely unchanged. -/
theorem requestInterceptor_spec (env : Env) (st : Storage)
    (cfg : RequestConfig) :
    (∀ t, Storage.getItem st (tokenStorageKey env) = some t → t ≠ "" →
        requestInterceptor env st cfg =
          { cfg with
            headers := Headers.set cfg.headers "Authorization"
              ("Bearer " ++ t) }) ∧
    (jsTruthy (Storage.getItem st (tokenStorageKey env)) = false →
        requestInterceptor env st cfg = cfg) := by
  constructor
  · intro t ht hne
    unfold requestInterceptor
    rw [ht]
    simp [isEmpty_false_of_ne t hne]
  · intro htr
    unfold requestInterceptor
    cases hgi : Storage.getItem st (tokenStorageKey env) with
    | none => rfl
    | some t =>
        rw [hgi] at htr
        simp only [jsTruthy, Bool.not_eq_false'] at htr
        simp [htr]

/-- Witness for the amended C4 at concrete inputs: a stored token `tok` puts
`Bearer tok` on the sample request; an empty storage leaves it unchanged. -/
theorem requestInterceptor_spec_witness :
    requestInterceptor envDefault sampleStorage sampleConfig =
      { sampleConfig with
        headers := Headers.set sampleConfig.headers "Authorization"
          "Bearer tok" } ∧
    requestInterceptor envDefault emptyStorage sampleConfig = sampleConfig :=
  ⟨(requestInterceptor_spec envDefault sampleStorage sampleConfig).1
      "tok" (by decide) (by decide),
   (requestInterceptor_spec envDefault emptyStorage sampleConfig).2 (by decide)⟩

/-- **C6**, counterexample: an axios error whose response body carries the
*present but empty* `message: ""` does not get that field returned — JS
truthiness makes `'' || error.message` fall through, so `getErrorMessage`
returns the error's own message instead of the present body field. -/
theorem empty_body_message_is_not_returned :
    Option.bind errEmptyDataMessage.response AxiosResponse.dataMessage
      = some "" ∧
    getErrorMessage (ErrorInput.axios errEmptyDataMessage) = "boom" ∧
    getErrorMessage (ErrorInput.axios errEmptyDataMessage) ≠ "" := by
  refine ⟨?_, ?_, ?_⟩ <;> decide

/-- **C6**, amended: `getErrorMessage` is total and returns, for an axios
error, the response body's `message` field when it is present *and
non-empty*, else the error's own message when that is non-empty, else
`An unexpected error occurred`; for any other `Error`, its message verbatim;
for every non-`Error` value, the fixed fallback string. -/
theorem getErrorMessage_spec :
    (∀ e m, Option.bind e.response AxiosResponse.dataMessage = some m →
        m ≠ "" → getErrorMessage (ErrorInput.axios e) = m) ∧
    (∀ e, jsTruthy (Option.bind e.response AxiosResponse.dataMessage) = false →
        e.message ≠ "" → getErrorMessage (ErrorInput.axios e) = e.message) ∧
    (∀ e, jsTruthy (Option.bind e.response AxiosResponse.dataMessage) = false →
        e.message = "" →
        getErrorMessage (ErrorInput.axios e) = "An unexpected error occurred") ∧
    (∀ m, getErrorMessage (ErrorInput.jsError m) = m) ∧
    getErrorMessage ErrorInput.nonError = "An unexpected error occurred" := by
  refine ⟨?_, ?_, ?_, fun _ => rfl, rfl⟩
  · intro e m hm hne
    simp only [getErrorMessage]
    rw [hm, jsOrStr_of_ne m _ hne]
  · intro e hf hne
    simp only [getErrorMessage]
    rw [jsOrStr_of_falsy _ _ hf, jsOrStr_of_ne _ _ hne]
  · intro e hf hmsg
    simp only [getErrorMessage]
    rw [jsOrStr_of_falsy _ _ hf, hmsg]
    rfl

/-- Witness for the amended C6 at concrete inputs: a body message is
preferred, a bodyless 401 falls back to the error message, and a plain
`Error` keeps its own message. -/
theorem getErrorMessage_spec_witness :
    getErrorMessage (ErrorInput.axios err404) = "Not found" ∧
    getErrorMessage (ErrorInput.axios err401)
      = "Request failed with status code 401" ∧
    getErrorMessage (ErrorInput.jsError "oops") = "oops" :=
  ⟨getErrorMessage_spec.1 err404 "Not found" (by decide) (by decide),
   getErrorMessage_spec.2.1 err401 (by decide) (by decide),
   getErrorMessage_spec.2.2.2.1 "oops"⟩

/-- **C3.**  The retry layer retries exactly on network/idempotent-request
errors and on statuses of 500 and above, never more than 3 times, with
exponentially growing delay; any error that carries a response with a status
below 500 (the separate 401-refresh interceptor aside) fails the retry
condition. -/
theorem retry_policy :
    apiRetryConfig.retries = 3 ∧
    (∀ e n, shouldRetry apiRetryConfig n e = true ↔
        n < 3 ∧ (isNetworkOrIdempotentRequestError e = true ∨
          500 ≤ e.statusOrZero)) ∧
    (∀ e r, e.response = some r → r.status < 500 →
        apiRetryConfig.retryCondition e = false) ∧
    (∀ e n, 3 ≤ n → shouldRetry apiRetryConfig n e = false) ∧
    apiRetryConfig.retryDelayBase = exponentialDelayBase ∧
    (∀ k, exponentialDelayBase (k + 1) = 2 * exponentialDelayBase k) := by
  refine ⟨rfl, ?_, ?_, ?_, rfl, ?_⟩
  · intro e n
    simp [shouldRetry, apiRetryConfig, Bool.and_eq_true, Bool.or_eq_true,
      decide_eq_true_iff]
  · intro e r hr hlt
    simp only [apiRetryConfig, isNetworkOrIdempotentRequestError,
      isNetworkError, isIdempotentRequestError, isRetryableError,
      AxiosErrorT.statusOrZero, hr]
    simp
    omega
  · intro e n hn
    have h3 : ¬ n < 3 := by omega
    simp [shouldRetry, apiRetryConfig, h3]
  · intro k
    simp [exponentialDelayBase, pow_succ]
    ring

/-- Witness for C3: a 404 with a response fails the retry condition, and no
fourth retry is ever scheduled. -/
theorem retry_policy_witness :
    apiRetryConfig.retryCondition err404 = false ∧
    shouldRetry apiRetryConfig 3 err401 = false :=
  ⟨retry_policy.2.2.1 err404 resp404 (by decide) (by decide),
   retry_policy.2.2.2.1 err401 3 (by decide)⟩

/-- Full case analysis of the error handler on an unmarked 401: either the
stored refresh token is falsy and the (marked) error is rejected with no
refresh POST, or the refresh succeeded and the marked request is retried with
the new bearer token stored, or the refresh failed and both tokens are
removed, the browser goes to `/login`, and the refresh error is rejected. -/
theorem interceptor_401_unmarked_cases (env : Env) (err : AxiosErrorT)
    (st : Storage) (res : Except String String)
    (h401 : err.statusIs401 = true) (hflag : err.config.retryFlag = false) :
    (jsTruthy (Storage.getItem st (refreshStorageKey env)) = false ∧
      responseErrorInterceptor env err st res =
        ⟨.rejectOriginal { err.config with retryFlag := true }, st, none, none⟩) ∨
    (jsTruthy (Storage.getItem st (refreshStorageKey env)) = true ∧
      ∃ t, res = Except.ok t ∧
        responseErrorInterceptor env err st res =
          ⟨.retryRequest
              { err.config with
                retryFlag := true,
                headers := Headers.set err.config.headers "Authorization"
                  ("Bearer " ++ t) },
            Storage.setItem st (tokenStorageKey env) t, none,
            some (getApiBaseUrl env ++ "/auth/refresh")⟩) ∨
    (jsTruthy (Storage.getItem st (refreshStorageKey env)) = true ∧
      ∃ msg, res = Except.error msg ∧
        responseErrorInterceptor env err st res =
          ⟨.rejectRefreshError msg,
            Storage.removeItem (Storage.removeItem st (tokenStorageKey env))
              (refreshStorageKey env),
            some "/login", some (getApiBaseUrl env ++ "/auth/refresh")⟩) := by
  cases hgi : Storage.getItem st (refreshStorageKey env) with
  | none =>
      left
      refine ⟨rfl, ?_⟩
      simp [responseErrorInterceptor, h401, hflag, hgi]
  | some rt =>
      cases hE : rt.isEmpty with
      | true =>
          left
          refine ⟨by simp [jsTruthy, hE], ?_⟩
          simp [responseErrorInterceptor, h401, hflag, hgi, hE]
      | false =>
          cases res with
          | ok t =>
              right; left
              refine ⟨by simp [jsTruthy, hE], t, rfl, ?_⟩
              simp [responseErrorInterceptor, h401, hflag, hgi, hE]
          | error msg =>
              right; right
              refine ⟨by simp [jsTruthy, hE], msg, rfl, ?_⟩
              simp [responseErrorInterceptor, h401, hflag, hgi, hE]

/-- A 401 whose config is already `_retry`-marked takes the fall-through
path: rejected unchanged, storage untouched, no refresh POST. -/
theorem interceptor_marked_401 (env : Env) (err : AxiosErrorT) (st : Storage)
    (res : Except String String) (h401 : err.statusIs401 = true)
    (hflag : err.config.retryFlag = true) :
    responseErrorInterceptor env err st res =
      ⟨.rejectOriginal err.config, st, none, none⟩ := by
  simp [responseErrorInterceptor, h401, hflag]

/-- **C1.**  Per-request refresh happens at most once: on a 401 whose config
is not yet `_retry`-marked, every config the handler emits (whether it
retries or rejects) carries the mark, and any 401 arriving with a marked
config is rejected as-is, with no refresh POST issued. -/
theorem refresh_attempted_at_most_once_per_request (env : Env)
    (err : AxiosErrorT) (st : Storage) (res : Except String String)
    (h401 : err.statusIs401 = true) (hflag : err.config.retryFlag = false) :
    (∀ cfg, InterceptorAction.configOf
        (responseErrorInterceptor env err st res).action = some cfg →
        cfg.retryFlag = true) ∧
    (∀ env2 err2 st2 res2, err2.statusIs401 = true →
        err2.config.retryFlag = true →
        (responseErrorInterceptor env2 err2 st2 res2).refreshCall = none ∧
        (responseErrorInterceptor env2 err2 st2 res2).action
          = .rejectOriginal err2.config) := by
  constructor
  · intro cfg hcfg
    rcases interceptor_401_unmarked_cases env err st res h401 hflag with
      ⟨_, hout⟩ | ⟨_, t, _, hout⟩ | ⟨_, msg, _, hout⟩ <;>
      rw [hout] at hcfg <;>
      simp only [InterceptorAction.configOf] at hcfg
    · rw [← Option.some_inj.mp hcfg]
    · rw [← Option.some_inj.mp hcfg]
    · cases hcfg
  · intro env2 err2 st2 res2 h2 hf2
    rw [interceptor_marked_401 env2 err2 st2 res2 h2 hf2]
    exact ⟨rfl, rfl⟩

/-- Witness for C1: the already-marked sample 401 is rejected unchanged and
triggers no refresh POST. -/
theorem refresh_attempted_at_most_once_per_request_witness :
    (responseErrorInterceptor envDefault err401retried sampleStorage
        (Except.ok "new")).refreshCall = none ∧
    (responseErrorInterceptor envDefault err401retried sampleStorage
        (Except.ok "new")).action
      = InterceptorAction.rejectOriginal err401retried.config :=
  (refresh_attempted_at_most_once_per_request envDefault err401 sampleStorage
      (Except.ok "new") (by decide) (by decide)).2
    envDefault err401retried sampleStorage (Except.ok "new")
    (by decide) (by decide)

/-- On an unmarked 401 with a truthy stored refresh token, a refresh POST to
`getApiBaseUrl() + '/auth/refresh'` is always issued, whatever its result. -/
theorem refreshCall_of_unmarked_401 (env : Env) (err : AxiosErrorT)
    (st : Storage) (res : Except String String)
    (h401 : err.statusIs401 = true) (hflag : err.config.retryFlag = false)
    (ht : jsTruthy (Storage.getItem st (refreshStorageKey env)) = true) :
    (responseErrorInterceptor env err st res).refreshCall =
      some (getApiBaseUrl env ++ "/auth/refresh") := by
  rcases interceptor_401_unmarked_cases env err st res h401 hflag with
    ⟨hf, _⟩ | ⟨_, t, _, hout⟩ | ⟨_, msg, _, hout⟩
  · rw [ht] at hf; cases hf
  · rw [hout]
  · rw [hout]

/-- **C8.**  Two requests that both receive a 401 while the same refresh
token is stored each issue their own refresh POST: handling one does not
suppress the other's refresh (the handler keeps no shared in-flight-refresh
state, only the per-request `_retry` mark). -/
theorem concurrent_401s_each_refresh (env : Env) (e1 e2 : AxiosErrorT)
    (st : Storage) (r1 r2 : Except String String)
    (h1 : e1.statusIs401 = true) (f1 : e1.config.retryFlag = false)
    (h2 : e2.statusIs401 = true) (f2 : e2.config.retryFlag = false)
    (ht : jsTruthy (Storage.getItem st (refreshStorageKey env)) = true) :
    (responseErrorInterceptor env e1 st r1).refreshCall =
      some (getApiBaseUrl env ++ "/auth/refresh") ∧
    (responseErrorInterceptor env e2 st r2).refreshCall =
      some (getApiBaseUrl env ++ "/auth/refresh") :=
  ⟨refreshCall_of_unmarked_401 env e1 st r1 h1 f1 ht,
   refreshCall_of_unmarked_401 env e2 st r2 h2 f2 ht⟩

/-- Witness for C8: two concrete distinct 401-ed requests over the sample
storage both POST to the default refresh URL. -/
theorem concurrent_401s_each_refresh_witness :
    (responseErrorInterceptor envDefault err401 sampleStorage
        (Except.ok "a")).refreshCall
      = some (getApiBaseUrl envDefault ++ "/auth/refresh") ∧
    (responseErrorInterceptor envDefault err401b sampleStorage
        (Except.error "down")).refreshCall
      = some (getApiBaseUrl envDefault ++ "/auth/refresh") :=
  concurrent_401s_each_refresh envDefault err401 err401b sampleStorage
    (Except.ok "a") (Except.error "down") (by decide) (by decide) (by decide)
    (by decide) (by decide)

/-- **C10.**  When the refresh call for an unmarked 401 fails, the handler
removes both tokens from localStorage, redirects to `/login`, rejects with
the refresh error, and does not retry the original request. -/
theorem refresh_failure_logs_out (env : Env) (err : AxiosErrorT)
    (st : Storage) (msg : String)
    (h401 : err.statusIs401 = true) (hflag : err.config.retryFlag = false)
    (ht : jsTruthy (Storage.getItem st (refreshStorageKey env)) = true) :
    (responseErrorInterceptor env err st (Except.error msg)).action
      = .rejectRefreshError msg ∧
    Storage.getItem
      (responseErrorInterceptor env err st (Except.error msg)).storage
      (tokenStorageKey env) = none ∧
    Storage.getItem
      (responseErrorInterceptor env err st (Except.error msg)).storage
      (refreshStorageKey env) = none ∧
    (responseErrorInterceptor env err st (Except.error msg)).redirect
      = some "/login" ∧
    (∀ cfg, (responseErrorInterceptor env err st (Except.error msg)).action
      ≠ .retryRequest cfg) := by
  rcases interceptor_401_unmarked_cases env err st (Except.error msg) h401
      hflag with ⟨hf, _⟩ | ⟨_, t, hres, _⟩ | ⟨_, m, hres, hout⟩
  · rw [ht] at hf; cases hf
  · cases hres
  · cases hres
    rw [hout]
    refine ⟨rfl, ?_, ?_, rfl, ?_⟩
    · exact Storage.getItem_removeItem_of_none _ _ _
        (Storage.getItem_removeItem_self st (tokenStorageKey env))
    · exact Storage.getItem_removeItem_self _ _
    · intro cfg h
      cases h

/-- Witness for C10: a concrete failed refresh wipes the sample storage's
tokens and redirects to `/login`. -/
theorem refresh_failure_logs_out_witness :
    (responseErrorInterceptor envDefault err401 sampleStorage
        (Except.error "expired")).action
      = InterceptorAction.rejectRefreshError "expired" ∧
    Storage.getItem (responseErrorInterceptor envDefault err401 sampleStorage
        (Except.error "expired")).storage (tokenStorageKey envDefault)
      = none ∧
    (responseErrorInterceptor envDefault err401 sampleStorage
        (Except.error "expired")).redirect = some "/login" :=
  ⟨(refresh_failure_logs_out envDefault err401 sampleStorage "expired"
      (by decide) (by decide) (by decide)).1,
   (refresh_failure_logs_out envDefault err401 sampleStorage "expired"
      (by decide) (by decide) (by decide)).2.1,
   (refresh_failure_logs_out envDefault err401 sampleStorage "expired"
      (by decide) (by decide) (by decide)).2.2.2.1⟩

/-- **C9.**  Every auth-slice action preserves the invariant that an
authenticated state holds a token: from any state where
`isAuthenticated → token ≠ null`, the reduced state again satisfies it, and
whenever the reduced state has a null token its `isAuthenticated` is false.
Every action that sets `isAuthenticated` to true stores a `String` token
(`some _`), and both token-clearing actions also clear `isAuthenticated`. -/
theorem auth_slice_preserves_token_invariant (env : Env) (s : AuthState)
    (st : Storage) (a : AuthAction)
    (hinv : s.isAuthenticated = true → s.token ≠ none) :
    ((authReducer env (s, st) a).1.isAuthenticated = true →
        (authReducer env (s, st) a).1.token ≠ none) ∧
    ((authReducer env (s, st) a).1.token = none →
        (authReducer env (s, st) a).1.isAuthenticated = false) := by
  have haux : ∀ s1 : AuthState, (s1.isAuthenticated = true → s1.token ≠ none) →
      ((s1.isAuthenticated = true → s1.token ≠ none) ∧
        (s1.token = none → s1.isAuthenticated = false)) := by
    intro s1 h1
    refine ⟨h1, fun ht => ?_⟩
    cases hA : s1.isAuthenticated
    · rfl
    · exact absurd ht (h1 hA)
  cases a with
  | setCredentials u t rt =>
      exact ⟨fun _ h => Option.noConfusion h, fun h => Option.noConfusion h⟩
  | clearCredentials => exact ⟨fun h => Bool.noConfusion h, fun _ => rfl⟩
  | clearError => exact haux _ hinv
  | loginPending => exact haux _ hinv
  | loginFulfilled p =>
      exact ⟨fun _ h => Option.noConfusion h, fun h => Option.noConfusion h⟩
  | loginRejected p => exact haux _ hinv
  | registerPending => exact haux _ hinv
  | registerFulfilled p =>
      exact ⟨fun _ h => Option.noConfusion h, fun h => Option.noConfusion h⟩
  | registerRejected p => exact haux _ hinv
  | logoutPending => exact haux _ hinv
  | logoutFulfilled => exact ⟨fun h => Bool.noConfusion h, fun _ => rfl⟩
  | logoutRejected p => exact haux _ hinv

/-- Witness for C9: reducing the empty auth state (null token) by
`clearError` leaves it unauthenticated. -/
theorem auth_slice_preserves_token_invariant_witness :
    (authReducer envDefault (authState0, emptyStorage)
        AuthAction.clearError).1.isAuthenticated = false :=
  (auth_slice_preserves_token_invariant envDefault authState0 emptyStorage
      AuthAction.clearError (by decide)).2 (by decide)

end Boilerplate
